import Mathlib

/-!
# Promotions admin page: `service/static/js/rest_api.js`

A shallow embedding of the jQuery script that binds the promotion form to the
REST resource `/promotions`.

Modelling conventions.

* The DOM is the record `Page`: the six form fields (what `.val()` returns), the
  content of `#flash_message` and the content of `#search_results`.  The content
  of an output area is the markup handed to `.append`, as a string; `.empty()`
  makes it `""`.
* A decoded JSON Promotion is the record `Promotion`, typed as in the data model:
  `id` is a number or a string, `available` a boolean, the other four are strings.
  A numeric `id` is an integer that a JavaScript number holds exactly, at most
  `Number.MAX_SAFE_INTEGER` in magnitude; on those, `ToString` gives the plain
  decimal numeral. Larger and fractional numbers (rounded when decoded, printed
  in exponent form from `1e21` on) are outside the model.
* `$.ajax` does not run anything: it records the request in `World.inflight`.
  The response arrives later as an event and runs the `done` or the `fail` callback.
* A callback that throws leaves the page as it was at the throw; the throw is
  recorded in `Result.completion`.
-/

namespace RestApi

/-! ## Data model -/

/-- The constant `Number.MAX_SAFE_INTEGER`, that is `2^53 - 1`. -/
def MAX_SAFE_INTEGER : Int := 9007199254740991

/-- An integer that a JavaScript number holds exactly. -/
abbrev SafeInteger : Type :=
  { n : Int // -MAX_SAFE_INTEGER ≤ n ∧ n ≤ MAX_SAFE_INTEGER }

/-- The `id` of a Promotion as it comes out of JSON: a number or a string. -/
inductive Ident where
  | num (n : SafeInteger)
  | str (s : String)
  deriving DecidableEq, Repr

/-- A Promotion decoded from a JSON response. -/
structure Promotion where
  id : Ident
  name : String
  category : String
  available : Bool
  gender : String
  birthday : String
  deriving DecidableEq, Repr

/-- The object `data` built by the Create and Update handlers (before `JSON.stringify`). -/
structure Payload where
  name : String
  category : String
  available : Bool
  gender : String
  birthday : String
  deriving DecidableEq, Repr

/-- The page: form fields, message area, results container. -/
structure Page where
  promotion_id : String
  promotion_name : String
  promotion_category : String
  promotion_available : String
  promotion_gender : String
  promotion_birthday : String
  flash_message : String
  search_results : String
  deriving DecidableEq, Repr

/-- The decoded body of a failure response, seen through the one property the
script reads: `message` is `none` when the body has no such field (`undefined`). -/
structure ErrorBody where
  message : Option String
  deriving DecidableEq, Repr

/-- The `jqXHR` object passed to a `fail` callback: `responseJSON` is `none`
(`undefined`) when the response carried no JSON body, e.g. on a network failure. -/
structure JqXHR where
  responseJSON : Option ErrorBody
  deriving DecidableEq, Repr

/-- The value passed to a `done` callback: a Promotion, a sequence of Promotions,
or anything else (an empty or non-JSON body), kept as raw text. -/
inductive Body where
  | record (p : Promotion)
  | list (ps : List Promotion)
  | text (s : String)
  deriving DecidableEq, Repr

/-- How a callback ended. -/
inductive Completion where
  | normal
  | typeError
  deriving DecidableEq, Repr

/-- The page a callback leaves behind, and how the callback ended. -/
structure Result where
  page : Page
  completion : Completion
  deriving DecidableEq, Repr

/-- Which button issued a request, i.e. which pair of callbacks is attached to it. -/
inductive Op where
  | create
  | update
  | retrieve
  | delete
  | search
  deriving DecidableEq, Repr

/-- The settings object passed to `$.ajax`. `data` is `none` for `data: ''`. -/
structure Request where
  op : Op
  type : String
  url : String
  contentType : String
  data : Option Payload
  deriving DecidableEq, Repr

/-- The page together with the requests that have been issued and not yet answered. -/
structure World where
  page : Page
  inflight : List Request
  deriving DecidableEq, Repr

/-! ## JavaScript and jQuery primitives -/

/-- JavaScript `ToString` on a boolean. -/
def boolToString (b : Bool) : String :=
  if b then "true" else "false"

/-- JavaScript `ToString` on an identifier: a string is itself, a safe integer
is printed as its decimal numeral. This is what `.val(res.id)` stores (jQuery
turns a number into a string with `val += ""`) and what a template literal
interpolates. -/
def identToString : Ident → String
  | .num n => toString n.val
  | .str s => s

/-- JavaScript truthiness of a string, as in `if (name)`. -/
def truthy (s : String) : Bool :=
  s != ""

/-- The call `$("#flash_message").empty()`. -/
def empty_flash (d : Page) : Page :=
  { d with flash_message := "" }

/-- The call `$("#flash_message").append(message)`; appending `undefined` adds nothing. -/
def append_flash (message : Option String) (d : Page) : Page :=
  match message with
  | none => d
  | some s => { d with flash_message := d.flash_message ++ s }

/-- The call `$.ajax(settings)`: the request is now in flight. -/
def ajax (settings : Request) (w : World) : World :=
  { w with inflight := w.inflight ++ [settings] }

/-! ## Utility functions (lines 7-34) -/

/-- Updates the form with data from the response. -/
def update_form_data (res : Promotion) (d : Page) : Page :=
  let d := { d with promotion_id := identToString res.id }
  let d := { d with promotion_name := res.name }
  let d := { d with promotion_category := res.category }
  let d :=
    if res.available == true then
      { d with promotion_available := "true" }
    else
      { d with promotion_available := "false" }
  let d := { d with promotion_gender := res.gender }
  { d with promotion_birthday := res.birthday }

/-- Clears all form fields (the identifier field is not among them). -/
def clear_form_data (d : Page) : Page :=
  let d := { d with promotion_name := "" }
  let d := { d with promotion_category := "" }
  let d := { d with promotion_available := "" }
  let d := { d with promotion_gender := "" }
  { d with promotion_birthday := "" }

/-- Updates the flash message area. -/
def flash_message (message : Option String) (d : Page) : Page :=
  append_flash message (empty_flash d)

/-- The argument expression `res.responseJSON.message` followed by the call of
`flash_message`: reading `message` off an `undefined` body throws before the call. -/
def flash_response_message (res : JqXHR) (d : Page) : Result :=
  match res.responseJSON with
  | none => ⟨d, .typeError⟩
  | some body => ⟨flash_message body.message d, .normal⟩

/-! ## Create (lines 40-73) -/

/-- The object `data` of the Create handler. -/
def create_data (d : Page) : Payload :=
  let name := d.promotion_name
  let category := d.promotion_category
  let available := decide (d.promotion_available = "true")
  let gender := d.promotion_gender
  let birthday := d.promotion_birthday
  { name := name, category := category, available := available,
    gender := gender, birthday := birthday }

/-- The click handler of `#create-btn`. -/
def create_btn_click (w : World) : World :=
  let data := create_data w.page
  let w := { w with page := empty_flash w.page }
  ajax { op := .create, type := "POST", url := "/promotions",
         contentType := "application/json", data := some data } w

/-- The `done` callback of Create. -/
def create_done (res : Promotion) (d : Page) : Result :=
  let d := update_form_data res d
  ⟨flash_message (some "Success") d, .normal⟩

/-- The `fail` callback of Create. -/
def create_fail (res : JqXHR) (d : Page) : Result :=
  flash_response_message res d

/-! ## Update (lines 80-115) -/

/-- The object `data` of the Update handler. -/
def update_data (d : Page) : Payload :=
  let name := d.promotion_name
  let category := d.promotion_category
  let available := decide (d.promotion_available = "true")
  let gender := d.promotion_gender
  let birthday := d.promotion_birthday
  { name := name, category := category, available := available,
    gender := gender, birthday := birthday }

/-- The click handler of `#update-btn`. -/
def update_btn_click (w : World) : World :=
  let promotion_id := w.page.promotion_id
  let data := update_data w.page
  let w := { w with page := empty_flash w.page }
  ajax { op := .update, type := "PUT", url := "/promotions/" ++ promotion_id,
         contentType := "application/json", data := some data } w

/-- The `done` callback of Update. -/
def update_done (res : Promotion) (d : Page) : Result :=
  let d := update_form_data res d
  ⟨flash_message (some "Success") d, .normal⟩

/-- The `fail` callback of Update. -/
def update_fail (res : JqXHR) (d : Page) : Result :=
  flash_response_message res d

/-! ## Retrieve (lines 121-145) -/

/-- The click handler of `#retrieve-btn`. -/
def retrieve_btn_click (w : World) : World :=
  let promotion_id := w.page.promotion_id
  let w := { w with page := empty_flash w.page }
  ajax { op := .retrieve, type := "GET", url := "/promotions/" ++ promotion_id,
         contentType := "application/json", data := none } w

/-- The `done` callback of Retrieve. -/
def retrieve_done (res : Promotion) (d : Page) : Result :=
  let d := update_form_data res d
  ⟨flash_message (some "Success") d, .normal⟩

/-- The `fail` callback of Retrieve. -/
def retrieve_fail (res : JqXHR) (d : Page) : Result :=
  let d := clear_form_data d
  flash_response_message res d

/-! ## Delete (lines 151-172) -/

/-- The click handler of `#delete-btn`. -/
def delete_btn_click (w : World) : World :=
  let promotion_id := w.page.promotion_id
  let w := { w with page := empty_flash w.page }
  ajax { op := .delete, type := "DELETE", url := "/promotions/" ++ promotion_id,
         contentType := "application/json", data := none } w

/-- The `done` callback of Delete; the response `res` is not looked at. -/
def delete_done (_res : Body) (d : Page) : Result :=
  let d := clear_form_data d
  ⟨flash_message (some "promotion has been Deleted!") d, .normal⟩

/-- The `fail` callback of Delete; the response `res` is not looked at. -/
def delete_fail (_res : JqXHR) (d : Page) : Result :=
  ⟨flash_message (some "Server error!") d, .normal⟩

/-! ## Clear (lines 178-182) -/

/-- The click handler of `#clear-btn`. -/
def clear_btn_click (w : World) : World :=
  let d := { w.page with promotion_id := "" }
  let d := empty_flash d
  { w with page := clear_form_data d }

/-! ## Search (lines 188-258) -/

/-- The variable `queryString` of the Search handler when the request is issued. -/
def queryString (d : Page) : String :=
  let name := d.promotion_name
  let category := d.promotion_category
  let available := decide (d.promotion_available = "true")
  let queryString := ""
  let queryString :=
    if truthy name then queryString ++ ("name=" ++ name) else queryString
  let queryString :=
    if truthy category then
      if queryString.length > 0 then
        queryString ++ ("&category=" ++ category)
      else
        queryString ++ ("category=" ++ category)
    else queryString
  let queryString :=
    if available then
      if queryString.length > 0 then
        queryString ++ ("&available=" ++ boolToString available)
      else
        queryString ++ ("available=" ++ boolToString available)
    else queryString
  queryString

/-- The click handler of `#search-btn`. -/
def search_btn_click (w : World) : World :=
  let queryString := queryString w.page
  let w := { w with page := empty_flash w.page }
  ajax { op := .search, type := "GET", url := "/promotions?" ++ queryString,
         contentType := "application/json", data := none } w

/-- The markup of the table up to and including `<tbody>` (lines 226-234). -/
def table_open : String :=
  let table := "<table class=\"table table-striped\" cellpadding=\"10\">"
  let table := table ++ "<thead><tr>"
  let table := table ++ "<th class=\"col-md-2\">ID</th>"
  let table := table ++ "<th class=\"col-md-2\">Name</th>"
  let table := table ++ "<th class=\"col-md-2\">Category</th>"
  let table := table ++ "<th class=\"col-md-2\">Available</th>"
  let table := table ++ "<th class=\"col-md-2\">Gender</th>"
  let table := table ++ "<th class=\"col-md-2\">Birthday</th>"
  table ++ "</tr></thead><tbody>"

/-- The template literal of line 238: the markup of row `i`. -/
def table_row (i : Nat) (promotion : Promotion) : String :=
  "<tr id=\"row_" ++ toString i ++ "\"><td>" ++ identToString promotion.id
    ++ "</td><td>" ++ promotion.name
    ++ "</td><td>" ++ promotion.category
    ++ "</td><td>" ++ boolToString promotion.available
    ++ "</td><td>" ++ promotion.gender
    ++ "</td><td>" ++ promotion.birthday ++ "</td></tr>"

/-- The `for` loop of lines 236-242, entered at index `i` with the entries
`res[i], res[i+1], ...` still to visit; `firstpromotion` is `none` while it
holds its initial `""`. -/
def search_loop : Nat → List Promotion → String → Option Promotion →
    String × Option Promotion
  | _, [], table, firstpromotion => (table, firstpromotion)
  | i, promotion :: rest, table, firstpromotion =>
    let table := table ++ table_row i promotion
    let firstpromotion := if i == 0 then some promotion else firstpromotion
    search_loop (i + 1) rest table firstpromotion

/-- The `done` callback of Search. An object is never loosely equal to `""`, so
the test `firstpromotion != ""` is the test that the loop assigned it. -/
def search_done (res : List Promotion) (d : Page) : Result :=
  let d := { d with search_results := "" }
  let table := table_open
  let (table, firstpromotion) := search_loop 0 res table none
  let table := table ++ "</tbody></table>"
  let d := { d with search_results := d.search_results ++ table }
  let d :=
    match firstpromotion with
    | some promotion => update_form_data promotion d
    | none => d
  ⟨flash_message (some "Success") d, .normal⟩

/-- The `fail` callback of Search. -/
def search_fail (res : JqXHR) (d : Page) : Result :=
  flash_response_message res d

/-! ## Events -/

/-- The six buttons. -/
inductive Button where
  | create
  | update
  | retrieve
  | delete
  | clear
  | search
  deriving DecidableEq, Repr

/-- The six form fields a user can type into. -/
inductive Field where
  | id
  | name
  | category
  | available
  | gender
  | birthday
  deriving DecidableEq, Repr

/-- How a request ends: with the `done` callback or with the `fail` callback. -/
inductive Reply where
  | done (res : Body)
  | fail (res : JqXHR)
  deriving DecidableEq, Repr

/-- What can happen to the page: a button is clicked, the user edits a field, or
the request at position `k` of the in-flight list is answered. -/
inductive Event where
  | click (b : Button)
  | input (f : Field) (v : String)
  | reply (k : Nat) (r : Reply)
  deriving DecidableEq, Repr

/-- The button that issues the requests of an operation. -/
def Op.button : Op → Button
  | .create => .create
  | .update => .update
  | .retrieve => .retrieve
  | .delete => .delete
  | .search => .search

/-- Whether an event is the answer to a request. -/
def Event.isReply : Event → Bool
  | .reply _ _ => true
  | _ => false

/-- The click handler registered on a button. -/
def on_click : Button → World → World
  | .create => create_btn_click
  | .update => update_btn_click
  | .retrieve => retrieve_btn_click
  | .delete => delete_btn_click
  | .clear => clear_btn_click
  | .search => search_btn_click

/-- The user edits a form field. -/
def set_field (f : Field) (v : String) (d : Page) : Page :=
  match f with
  | .id => { d with promotion_id := v }
  | .name => { d with promotion_name := v }
  | .category => { d with promotion_category := v }
  | .available => { d with promotion_available := v }
  | .gender => { d with promotion_gender := v }
  | .birthday => { d with promotion_birthday := v }

/-- The callback that an answer runs, by the operation that issued the request.
`none`: the success body has not the shape of that operation's answer. -/
def on_reply : Op → Reply → Page → Option Result
  | .create, .done (.record p), d => some (create_done p d)
  | .create, .fail x, d => some (create_fail x d)
  | .update, .done (.record p), d => some (update_done p d)
  | .update, .fail x, d => some (update_fail x d)
  | .retrieve, .done (.record p), d => some (retrieve_done p d)
  | .retrieve, .fail x, d => some (retrieve_fail x d)
  | .delete, .done b, d => some (delete_done b d)
  | .delete, .fail x, d => some (delete_fail x d)
  | .search, .done (.list ps), d => some (search_done ps d)
  | .search, .fail x, d => some (search_fail x d)
  | _, _, _ => none

/-- One event. `none`: the event cannot happen in this world (no such request in
flight, or an answer of the wrong shape). -/
def step (e : Event) (w : World) : Option World :=
  match e with
  | .click b => some (on_click b w)
  | .input f v => some { w with page := set_field f v w.page }
  | .reply k r =>
    match w.inflight[k]? with
    | none => none
    | some req =>
      match on_reply req.op r w.page with
      | none => none
      | some res => some { page := res.page, inflight := w.inflight.eraseIdx k }

/-- A sequence of events, in order. -/
def run : List Event → World → Option World
  | [], w => some w
  | e :: es, w =>
    match step e w with
    | none => none
    | some w1 => run es w1

/-- The page as first loaded: every field and both output areas empty. -/
def blank : Page :=
  { promotion_id := "", promotion_name := "", promotion_category := "",
    promotion_available := "", promotion_gender := "", promotion_birthday := "",
    flash_message := "", search_results := "" }

/-- The world as first loaded: the blank page, nothing in flight. -/
def start : World :=
  { page := blank, inflight := [] }

/-! ## Definitions that follow the specification -/

/-- The `key=value` pairs the specification lists for a search, in the order
name, category, available; a field that is empty (or not `"true"`) gives none. -/
def queryPairs (d : Page) : List String :=
  (if d.promotion_name = "" then [] else ["name=" ++ d.promotion_name])
    ++ (if d.promotion_category = "" then [] else ["category=" ++ d.promotion_category])
    ++ (if d.promotion_available = "true" then ["available=true"] else [])

/-- The fixed header of the results table: one `th` per column title. -/
def headerSpec : String :=
  "<table class=\"table table-striped\" cellpadding=\"10\"><thead><tr>"
    ++ String.join (["ID", "Name", "Category", "Available", "Gender", "Birthday"].map
        (fun title => "<th class=\"col-md-2\">" ++ title ++ "</th>"))
    ++ "</tr></thead><tbody>"

/-- The decimal numeral of a natural number: its base-ten digits, most
significant first; the numeral of zero is `0`. -/
def numeralSpec (n : Nat) : String :=
  if n = 0 then "0" else String.mk ((Nat.digits 10 n).reverse.map Nat.digitChar)

/-- The text of an integer: the numeral of its magnitude, after a minus sign when
it is negative. -/
def integerTextSpec (n : Int) : String :=
  if n < 0 then "-" ++ numeralSpec n.natAbs else numeralSpec n.natAbs

/-- The text that shows an identifier: a string identifier as it is, a numeric
one as its decimal text. -/
def identTextSpec : Ident → String
  | .num n => integerTextSpec n.val
  | .str s => s

/-- The text that shows an availability. -/
def availableTextSpec (available : Bool) : String :=
  match available with
  | true => "true"
  | false => "false"

/-- The six cells of a result, in column order. -/
def cellsSpec (p : Promotion) : List String :=
  [identTextSpec p.id, p.name, p.category, availableTextSpec p.available, p.gender,
    p.birthday]

/-- The body row at position `i`: identifier `row_<i>`, then one `td` per cell. -/
def rowSpec (i : Nat) (p : Promotion) : String :=
  "<tr id=\"row_" ++ numeralSpec i ++ "\">"
    ++ String.join ((cellsSpec p).map (fun c => "<td>" ++ c ++ "</td>"))
    ++ "</tr>"

/-- The body rows of the table for a response: one per result, in response order. -/
def bodyRows (res : List Promotion) : List String :=
  res.enum.map (fun ip => rowSpec ip.1 ip.2)

/-! ## Helper lemmas -/

theorem update_form_data_eq (res : Promotion) (d : Page) :
    update_form_data res d
      = { promotion_id := identToString res.id, promotion_name := res.name,
          promotion_category := res.category,
          promotion_available := boolToString res.available,
          promotion_gender := res.gender, promotion_birthday := res.birthday,
          flash_message := d.flash_message, search_results := d.search_results } := by
  cases h : res.available <;> simp [update_form_data, boolToString, h]

theorem clear_form_data_eq (d : Page) :
    clear_form_data d
      = { promotion_id := d.promotion_id, promotion_name := "", promotion_category := "",
          promotion_available := "", promotion_gender := "", promotion_birthday := "",
          flash_message := d.flash_message, search_results := d.search_results } := rfl

theorem flash_message_eq (m : String) (d : Page) :
    flash_message (some m) d = { d with flash_message := m } := by
  simp [flash_message, append_flash, empty_flash]

theorem length_name_key : "name=".length = 5 := by decide

theorem length_category_key : "category=".length = 9 := by decide

theorem amp_category_key : "&category=" = "&" ++ "category=" := by decide

theorem pair_ne_empty (k s : String) (hk : 0 < k.length) : k ++ s ≠ "" := by
  intro h
  have h2 := congrArg String.length h
  rw [String.length_append] at h2
  have h0 : "".length = 0 := rfl
  omega

theorem name_pair_ne (s : String) : "name=" ++ s ≠ "available=false" := by
  intro h
  have h2 := congrArg String.data h
  rw [String.data_append] at h2
  have h3 := congrArg List.head? h2
  have h4 : ("name=".data ++ s.data).head? = some 'n' := rfl
  have h5 : "available=false".data.head? = some 'a' := rfl
  rw [h4, h5] at h3
  exact absurd h3 (by decide)

theorem category_pair_ne (s : String) : "category=" ++ s ≠ "available=false" := by
  intro h
  have h2 := congrArg String.data h
  rw [String.data_append] at h2
  have h3 := congrArg List.head? h2
  have h4 : ("category=".data ++ s.data).head? = some 'c' := rfl
  have h5 : "available=false".data.head? = some 'a' := rfl
  rw [h4, h5] at h3
  exact absurd h3 (by decide)

theorem foldl_append_acc (l : List String) (acc : String) :
    l.foldl (fun r s => r ++ s) acc = acc ++ l.foldl (fun r s => r ++ s) "" := by
  induction l generalizing acc with
  | nil => simp
  | cons s ss ih =>
    simp only [List.foldl_cons]
    rw [ih (acc ++ s), ih ("" ++ s)]
    simp [String.append_assoc]

theorem join_cons (s : String) (ss : List String) :
    String.join (s :: ss) = s ++ String.join ss := by
  simp only [String.join, List.foldl_cons]
  rw [foldl_append_acc]
  simp

theorem join_nil : String.join ([] : List String) = "" := rfl

/-- With enough fuel, the digit loop of `Nat.repr` prepends the base-ten digits
of a positive number, most significant first. -/
theorem toDigitsCore_digits (fuel : Nat) :
    ∀ (n : Nat) (ds : List Char), 0 < n → n < fuel →
      Nat.toDigitsCore 10 fuel n ds
        = (Nat.digits 10 n).reverse.map Nat.digitChar ++ ds := by
  induction fuel with
  | zero => intro n ds _ h; omega
  | succ fuel ih =>
    intro n ds hn hlt
    have hd : Nat.digits 10 n = (n % 10) :: Nat.digits 10 (n / 10) :=
      Nat.digits_def' (by decide) hn
    by_cases h0 : n / 10 = 0
    · simp [Nat.toDigitsCore, h0, hd]
    · have hpos : 0 < n / 10 := Nat.pos_of_ne_zero h0
      have hlt2 : n / 10 < fuel := by omega
      simp [Nat.toDigitsCore, h0, hd, ih (n / 10) _ hpos hlt2]

theorem nat_repr_eq_numeralSpec (n : Nat) : Nat.repr n = numeralSpec n := by
  by_cases hn : n = 0
  · subst hn
    decide
  · have hpos : 0 < n := Nat.pos_of_ne_zero hn
    simp [numeralSpec, hn, Nat.repr, Nat.toDigits,
      toDigitsCore_digits (n + 1) n [] hpos (by omega), List.asString]

theorem int_toString_eq_spec (n : Int) : toString n = integerTextSpec n := by
  cases n with
  | ofNat m =>
    have h2 : ¬ (Int.ofNat m < 0) := by simp
    show Nat.repr m = integerTextSpec (Int.ofNat m)
    rw [nat_repr_eq_numeralSpec]
    unfold integerTextSpec
    rw [if_neg h2]
    rfl
  | negSucc m =>
    have h2 : Int.negSucc m < 0 := Int.negSucc_lt_zero m
    show "-" ++ Nat.repr (m + 1) = integerTextSpec (Int.negSucc m)
    rw [nat_repr_eq_numeralSpec]
    unfold integerTextSpec
    rw [if_pos h2]
    rfl

theorem identToString_eq_spec (i : Ident) : identToString i = identTextSpec i := by
  cases i with
  | num n => exact int_toString_eq_spec n.val
  | str s => rfl

theorem boolToString_eq_spec (b : Bool) : boolToString b = availableTextSpec b := by
  cases b <;> rfl

theorem table_open_eq : table_open = headerSpec := by
  simp [table_open, headerSpec, join_cons, join_nil]

theorem table_row_eq (i : Nat) (p : Promotion) : table_row i p = rowSpec i p := by
  have h1 : "\"><td>" = "\">" ++ "<td>" := by decide
  have h2 : "</td><td>" = "</td>" ++ "<td>" := by decide
  have h3 : "</td></tr>" = "</td>" ++ "</tr>" := by decide
  have h4 : toString i = numeralSpec i := nat_repr_eq_numeralSpec i
  simp only [table_row, rowSpec, cellsSpec, List.map, join_cons, join_nil,
    String.append_assoc, String.append_empty, identToString_eq_spec, boolToString_eq_spec,
    h4]
  rw [h1, h2, h3]
  simp only [String.append_assoc]

/-- The table text the loop leaves: what it was given, then one row per entry. -/
theorem search_loop_table (res : List Promotion) (i : Nat) (table : String)
    (first : Option Promotion) :
    (search_loop i res table first).1
      = table ++ String.join ((res.enumFrom i).map (fun ip => rowSpec ip.1 ip.2)) := by
  induction res generalizing i table first with
  | nil => simp [search_loop, join_nil]
  | cons p rest ih =>
    simp [search_loop, ih, join_cons, table_row_eq, String.append_assoc]

/-- Past index 0 the loop no longer assigns `firstpromotion`. -/
theorem search_loop_first_pos (res : List Promotion) (i : Nat) (table : String)
    (first : Option Promotion) (hi : 0 < i) :
    (search_loop i res table first).2 = first := by
  induction res generalizing i table first with
  | nil => simp [search_loop]
  | cons p rest ih =>
    have hne : i ≠ 0 := by omega
    simp [search_loop, ih, hne]

/-- Entered at index 0 on a non-empty response, the loop assigns the first entry. -/
theorem search_loop_first_zero (p : Promotion) (rest : List Promotion) (table : String)
    (first : Option Promotion) :
    (search_loop 0 (p :: rest) table first).2 = some p := by
  simp [search_loop, search_loop_first_pos]

theorem search_done_nil (d : Page) :
    search_done [] d
      = ⟨{ d with search_results := table_open ++ "</tbody></table>",
                  flash_message := "Success" }, .normal⟩ := by
  simp [search_done, search_loop, flash_message_eq]

theorem search_done_cons (p : Promotion) (rest : List Promotion) (d : Page) :
    search_done (p :: rest) d
      = ⟨{ promotion_id := identToString p.id, promotion_name := p.name,
           promotion_category := p.category,
           promotion_available := boolToString p.available,
           promotion_gender := p.gender, promotion_birthday := p.birthday,
           flash_message := "Success",
           search_results := (search_loop 0 (p :: rest) table_open none).1
              ++ "</tbody></table>" }, .normal⟩ := by
  simp [search_done, update_form_data_eq, flash_message_eq, search_loop_first_zero]

theorem on_click_flash (b : Button) (w : World) :
    (on_click b w).page.flash_message = "" := by
  cases b <;> rfl

/-- An event other than an answer can always happen and leaves an empty message
area empty. -/
theorem step_keeps_flash_empty (e : Event) (w : World) (he : e.isReply = false)
    (hw : w.page.flash_message = "") :
    ∃ w2, step e w = some w2 ∧ w2.page.flash_message = "" := by
  cases e with
  | click b => exact ⟨on_click b w, rfl, on_click_flash b w⟩
  | input f v =>
    refine ⟨{ w with page := set_field f v w.page }, rfl, ?_⟩
    cases f <;> exact hw
  | reply k r => simp [Event.isReply] at he

theorem run_keeps_flash_empty (es : List Event) (w : World)
    (hes : ∀ e ∈ es, e.isReply = false) (hw : w.page.flash_message = "") :
    (run es w).map (fun w2 => w2.page.flash_message) = some "" := by
  induction es generalizing w with
  | nil => simp [run, hw]
  | cons e es ih =>
    obtain ⟨w2, h1, h2⟩ :=
      step_keeps_flash_empty e w (hes e (List.mem_cons_self e es)) hw
    simp only [run, h1]
    exact ih w2 (fun x hx => hes x (List.mem_cons_of_mem e hx)) h2

/-! ## Theorems -/

/-- C1: the `available` value of the payload that Create and Update send is `true`
when the availability field holds exactly `"true"` and `false` for every other
string; `"false"`, `""` and `"TRUE"` all give `false`. -/
theorem available_coercion (w : World) :
    (create_btn_click w).inflight.getLast?.map (fun r => r.data.map (fun p => p.available))
        = some (some (decide (w.page.promotion_available = "true")))
    ∧ (update_btn_click w).inflight.getLast?.map (fun r => r.data.map (fun p => p.available))
        = some (some (decide (w.page.promotion_available = "true")))
    ∧ ((create_data w.page).available = true ↔ w.page.promotion_available = "true")
    ∧ ((update_data w.page).available = true ↔ w.page.promotion_available = "true")
    ∧ ["false", "", "TRUE"].map
          (fun v => (create_data { w.page with promotion_available := v }).available)
        = [false, false, false]
    ∧ ["false", "", "TRUE"].map
          (fun v => (update_data { w.page with promotion_available := v }).available)
        = [false, false, false] := by
  refine ⟨?_, ?_, ?_, ?_, ?_, ?_⟩
  · simp [create_btn_click, ajax, create_data]
  · simp [update_btn_click, ajax, update_data]
  · simp [create_data]
  · simp [update_data]
  · simp [create_data]
  · simp [update_data]

/-- C5: after a successful Create answered with the record `res`, the form shows
the identifier of `res` (a string identifier as it is, a numeric one as its
decimal text), its name, category, gender and birthday, availability `"true"`
when `res.available` is true and `"false"` otherwise, and the message area shows
exactly `"Success"`, whatever the page held before; the callback ends normally.
In particular the flash-sale record with identifier 7 leaves the form with `"7"`
and the five submitted values. -/
theorem create_done_shows_response (res : Promotion) (d : Page) :
    (create_done res d).page.promotion_id = identTextSpec res.id
    ∧ (∀ s : String, (create_done { res with id := .str s } d).page.promotion_id = s)
    ∧ [(0 : Int), 7, 42, -12, 1234567890, 9007199254740991, -9007199254740991].map
          (fun n => if h : -MAX_SAFE_INTEGER ≤ n ∧ n ≤ MAX_SAFE_INTEGER then
            (create_done { res with id := .num ⟨n, h⟩ } d).page.promotion_id else "unsafe")
        = ["0", "7", "42", "-12", "1234567890", "9007199254740991", "-9007199254740991"]
    ∧ (create_done res d).page.promotion_name = res.name
    ∧ (create_done res d).page.promotion_category = res.category
    ∧ (create_done res d).page.promotion_available
        = (if res.available = true then "true" else "false")
    ∧ (create_done res d).page.promotion_gender = res.gender
    ∧ (create_done res d).page.promotion_birthday = res.birthday
    ∧ (create_done res d).page.flash_message = "Success"
    ∧ (create_done res d).completion = .normal
    ∧ (create_done
          { id := .num ⟨7, by decide⟩, name := "flash sale", category := "electronics",
            available := true, gender := "unisex", birthday := "2024-01-01" }
          d).page
        = { promotion_id := "7", promotion_name := "flash sale",
            promotion_category := "electronics", promotion_available := "true",
            promotion_gender := "unisex", promotion_birthday := "2024-01-01",
            flash_message := "Success", search_results := d.search_results } := by
  refine ⟨?_, ?_, ?_, ?_, ?_, ?_, ?_, ?_, ?_, ?_, ?_⟩
  · simp [create_done, update_form_data_eq, flash_message_eq, identToString_eq_spec]
  · intro s
    simp [create_done, update_form_data_eq, flash_message_eq, identToString]
  · simp [create_done, update_form_data_eq, flash_message_eq, identToString,
      MAX_SAFE_INTEGER]
    decide
  · simp [create_done, update_form_data_eq, flash_message_eq]
  · simp [create_done, update_form_data_eq, flash_message_eq]
  · cases h : res.available <;>
      simp [create_done, update_form_data_eq, flash_message_eq, boolToString, h]
  · simp [create_done, update_form_data_eq, flash_message_eq]
  · simp [create_done, update_form_data_eq, flash_message_eq]
  · simp [create_done, flash_message_eq]
  · rfl
  · simp [create_done, update_form_data_eq, flash_message_eq, boolToString, identToString]
    rfl

/-- C7: after a failed Retrieve whose response carries the message `m`, name,
category, availability, gender and birthday are empty, the identifier field is
what it was before, the message area shows exactly `m`, and the callback ends
normally. -/
theorem retrieve_fail_clears_all_but_id (m : String) (d : Page) :
    (retrieve_fail { responseJSON := some { message := some m } } d).page
        = { promotion_id := d.promotion_id, promotion_name := "", promotion_category := "",
            promotion_available := "", promotion_gender := "", promotion_birthday := "",
            flash_message := m, search_results := d.search_results }
    ∧ (retrieve_fail { responseJSON := some { message := some m } } d).completion
        = .normal := by
  simp [retrieve_fail, flash_response_message, clear_form_data_eq, flash_message_eq]

/-- C8: what Delete leaves behind depends only on whether the request succeeded.
Two failure responses give the same result from the same page: the form as it
was and the fixed message `"Server error!"`. Two success responses give the same
result: name, category, availability, gender and birthday cleared (the
identifier field is kept, as `clear_form_data` does not touch it) and the fixed
message `"promotion has been Deleted!"`. -/
theorem delete_ignores_response (x1 x2 : JqXHR) (b1 b2 : Body) (d : Page) :
    delete_fail x1 d = delete_fail x2 d
    ∧ delete_fail x1 d = ⟨{ d with flash_message := "Server error!" }, .normal⟩
    ∧ delete_done b1 d = delete_done b2 d
    ∧ delete_done b1 d
        = ⟨{ promotion_id := d.promotion_id, promotion_name := "", promotion_category := "",
             promotion_available := "", promotion_gender := "", promotion_birthday := "",
             flash_message := "promotion has been Deleted!",
             search_results := d.search_results }, .normal⟩ := by
  simp [delete_fail, delete_done, clear_form_data_eq, flash_message_eq]

/-- C9: Clear leaves identifier, name, category, availability, gender and
birthday empty and the message area empty, whatever the page held before; it
issues no request (the in-flight list is unchanged) and keeps the results
table. -/
theorem clear_empties_form (w : World) :
    (clear_btn_click w).page
        = { promotion_id := "", promotion_name := "", promotion_category := "",
            promotion_available := "", promotion_gender := "", promotion_birthday := "",
            flash_message := "", search_results := w.page.search_results }
    ∧ (clear_btn_click w).inflight = w.inflight := by
  simp [clear_btn_click, clear_form_data_eq, empty_flash]

/-- C2: the query string Search builds is the `"&"`-join of the pairs
`name=<name>` (name non-empty), `category=<category>` (category non-empty) and
`available=true` (availability exactly `"true"`), in that order; no pair is the
empty string, so the join has no leading, trailing or doubled separator, and no
pair is `available=false`. The request goes to `/promotions?` followed by that
string. For name `"a"`, empty category and availability `"true"` the string is
exactly `name=a&available=true`. -/
theorem queryString_is_join (w : World) :
    queryString w.page = "&".intercalate (queryPairs w.page)
    ∧ "" ∉ queryPairs w.page
    ∧ "available=false" ∉ queryPairs w.page
    ∧ (search_btn_click w).inflight.getLast?.map (fun r => r.url)
        = some ("/promotions?" ++ "&".intercalate (queryPairs w.page))
    ∧ queryString { w.page with promotion_name := "a", promotion_category := "",
                                promotion_available := "true" }
        = "name=a&available=true" := by
  have hq : queryString w.page = "&".intercalate (queryPairs w.page) := by
    by_cases hn : w.page.promotion_name = "" <;>
    by_cases hc : w.page.promotion_category = "" <;>
    by_cases ha : w.page.promotion_available = "true" <;>
    simp [queryString, queryPairs, truthy, boolToString, hn, hc, ha, String.intercalate,
      String.intercalate.go, String.append_assoc, length_name_key, length_category_key]
    all_goals rw [amp_category_key, String.append_assoc]
  refine ⟨hq, ?_, ?_, ?_, ?_⟩
  · intro h
    simp only [queryPairs, List.mem_append] at h
    rcases h with (h | h) | h
    · split at h
      · simp at h
      · exact pair_ne_empty _ _ (by decide) (List.mem_singleton.mp h).symm
    · split at h
      · simp at h
      · exact pair_ne_empty _ _ (by decide) (List.mem_singleton.mp h).symm
    · split at h
      · exact absurd (List.mem_singleton.mp h) (by decide)
      · simp at h
  · intro h
    simp only [queryPairs, List.mem_append] at h
    rcases h with (h | h) | h
    · split at h
      · simp at h
      · exact name_pair_ne _ (List.mem_singleton.mp h).symm
    · split at h
      · simp at h
      · exact category_pair_ne _ (List.mem_singleton.mp h).symm
    · split at h
      · exact absurd (List.mem_singleton.mp h) (by decide)
      · simp at h
  · simp [search_btn_click, ajax, hq]
  · simp [queryString, truthy, boolToString]
    decide

/-- C3: after a successful Search with a non-empty response the form holds the
first result: its identifier (a string identifier as it is, a numeric one as
its decimal text), name, category, gender and birthday copied from it,
availability written as `"true"` or `"false"`, whatever the later results and
the earlier form were; after an empty response every form field, the
identifier included, is what it was before the search. -/
theorem search_done_mirrors_first (p : Promotion) (rest : List Promotion) (d : Page) :
    ((search_done (p :: rest) d).page.promotion_id = identTextSpec p.id
      ∧ (∀ s : String,
          (search_done ({ p with id := .str s } :: rest) d).page.promotion_id = s)
      ∧ [(0 : Int), 7, 42, -12, 1234567890, 9007199254740991, -9007199254740991].map
            (fun n => if h : -MAX_SAFE_INTEGER ≤ n ∧ n ≤ MAX_SAFE_INTEGER then
              (search_done ({ p with id := .num ⟨n, h⟩ } :: rest) d).page.promotion_id
              else "unsafe")
          = ["0", "7", "42", "-12", "1234567890", "9007199254740991", "-9007199254740991"]
      ∧ (search_done (p :: rest) d).page.promotion_name = p.name
      ∧ (search_done (p :: rest) d).page.promotion_category = p.category
      ∧ (search_done (p :: rest) d).page.promotion_available
          = (if p.available = true then "true" else "false")
      ∧ (search_done (p :: rest) d).page.promotion_gender = p.gender
      ∧ (search_done (p :: rest) d).page.promotion_birthday = p.birthday)
    ∧ ((search_done [] d).page.promotion_id = d.promotion_id
      ∧ (search_done [] d).page.promotion_name = d.promotion_name
      ∧ (search_done [] d).page.promotion_category = d.promotion_category
      ∧ (search_done [] d).page.promotion_available = d.promotion_available
      ∧ (search_done [] d).page.promotion_gender = d.promotion_gender
      ∧ (search_done [] d).page.promotion_birthday = d.promotion_birthday) := by
  constructor
  · refine ⟨?_, ?_, ?_, ?_⟩
    · rw [search_done_cons]
      exact identToString_eq_spec p.id
    · intro s
      rw [search_done_cons]
      rfl
    · simp only [search_done_cons]
      simp [identToString, MAX_SAFE_INTEGER]
      decide
    · rw [search_done_cons]
      cases h : p.available <;> simp [boolToString]
  · rw [search_done_nil]
    simp

/-- C4: after a successful Search the results container holds, in place of
whatever it held before, the fixed header (ID, Name, Category, Available,
Gender, Birthday) followed by one body row per result, in response order, and
the closing tags; there are exactly `res.length` rows, the row at position `i`
carries the identifier `row_<i>` and the six cells identifier, name, category,
available, gender, birthday of `res[i]`; for an empty response the table is the
header and the closing tags only. The table for a response of two records is
written out in full. -/
theorem search_done_table (res : List Promotion) (d : Page) :
    (search_done res d).page.search_results
        = headerSpec ++ String.join (bodyRows res) ++ "</tbody></table>"
    ∧ (bodyRows res).length = res.length
    ∧ (∀ i : Nat, (bodyRows res)[i]? = res[i]?.map (rowSpec i))
    ∧ (search_done [] d).page.search_results = headerSpec ++ "</tbody></table>"
    ∧ (search_done
          [{ id := .num ⟨7, by decide⟩, name := "flash sale", category := "electronics",
             available := true, gender := "unisex", birthday := "2024-01-01" },
           { id := .str "x-2", name := "clearance", category := "garden",
             available := false, gender := "female", birthday := "2023-12-31" }]
          d).page.search_results
        = "<table class=\"table table-striped\" cellpadding=\"10\"><thead><tr>"
          ++ "<th class=\"col-md-2\">ID</th><th class=\"col-md-2\">Name</th>"
          ++ "<th class=\"col-md-2\">Category</th><th class=\"col-md-2\">Available</th>"
          ++ "<th class=\"col-md-2\">Gender</th><th class=\"col-md-2\">Birthday</th>"
          ++ "</tr></thead><tbody>"
          ++ "<tr id=\"row_0\"><td>7</td><td>flash sale</td><td>electronics</td>"
          ++ "<td>true</td><td>unisex</td><td>2024-01-01</td></tr>"
          ++ "<tr id=\"row_1\"><td>x-2</td><td>clearance</td><td>garden</td>"
          ++ "<td>false</td><td>female</td><td>2023-12-31</td></tr>"
          ++ "</tbody></table>" := by
  refine ⟨?_, ?_, ?_, ?_, ?_⟩
  · cases res with
    | nil => simp [search_done_nil, bodyRows, join_nil, table_open_eq]
    | cons p rest =>
      rw [search_done_cons, search_loop_table, table_open_eq]
      simp [bodyRows, List.enum]
  · simp [bodyRows]
  · intro i
    simp only [bodyRows, List.getElem?_map, List.getElem?_enum]
    cases res[i]? <;> rfl
  · simp [search_done_nil, table_open_eq]
  · have h0 : toString (0 : Nat) = "0" := by decide
    have h1 : toString (1 : Nat) = "1" := by decide
    have h7 : toString (7 : Int) = "7" := by decide
    simp [search_done_cons, search_loop, table_open, table_row, identToString,
      boolToString]
    rw [h0, h1, h7]
    simp

/-- C6: a failure response without a JSON body (`responseJSON` undefined, as on
a network failure) makes the `fail` callbacks of Create, Update, Retrieve and
Search throw a `TypeError` and leaves the message area as the click handler
emptied it; a JSON body without a `message` field ends normally but shows no
text either. Delete, which shows a fixed string, always ends normally. -/
theorem fail_without_body_throws (d : Page) :
    create_fail { responseJSON := none } (empty_flash d) = ⟨empty_flash d, .typeError⟩
    ∧ update_fail { responseJSON := none } (empty_flash d) = ⟨empty_flash d, .typeError⟩
    ∧ retrieve_fail { responseJSON := none } (empty_flash d)
        = ⟨clear_form_data (empty_flash d), .typeError⟩
    ∧ search_fail { responseJSON := none } (empty_flash d) = ⟨empty_flash d, .typeError⟩
    ∧ create_fail { responseJSON := some { message := none } } (empty_flash d)
        = ⟨empty_flash d, .normal⟩
    ∧ (create_fail { responseJSON := none } (create_btn_click start).page).completion
        = .typeError
    ∧ (create_fail { responseJSON := none } (create_btn_click start).page).page.flash_message
        = ""
    ∧ delete_fail { responseJSON := none } (empty_flash d)
        = ⟨{ d with flash_message := "Server error!" }, .normal⟩ := by
  refine ⟨rfl, rfl, rfl, rfl, rfl, rfl, rfl, ?_⟩
  simp [delete_fail, flash_message_eq, empty_flash]

/-- C10, as stated, fails: Create is clicked, then Delete is clicked, then the
answer to Create arrives. The Delete request is still in flight, its own
callback has not run, and the message area shows `"Success"`, set by the
earlier operation. -/
theorem earlier_reply_sets_message :
    (run [.click .create, .click .delete,
          .reply 0 (.done (.record
            { id := .num ⟨7, by decide⟩, name := "flash sale", category := "electronics",
              available := true, gender := "unisex", birthday := "2024-01-01" }))]
        start).map (fun w => (w.page.flash_message, w.inflight.map (fun r => r.op)))
      = some ("Success", [.delete]) := by
  decide

/-- C10, amended: each of the five request-issuing handlers leaves the page as it
was except for an emptied message area and puts exactly one more request in
flight, so the message area is empty when the request is issued; from there it
stays empty through every sequence of events that contains no answer to a
request (further clicks and edits), i.e. until some response callback runs. -/
theorem message_empty_when_issued (op : Op) (w : World) (es : List Event)
    (hes : ∀ e ∈ es, e.isReply = false) :
    (on_click op.button w).page = empty_flash w.page
    ∧ (on_click op.button w).page.flash_message = ""
    ∧ (on_click op.button w).inflight.length = w.inflight.length + 1
    ∧ (on_click op.button w).inflight.getLast?.map (fun r => r.op) = some op
    ∧ (run es (on_click op.button w)).map (fun w2 => w2.page.flash_message) = some "" := by
  refine ⟨?_, on_click_flash _ w, ?_, ?_, run_keeps_flash_empty es _ hes (on_click_flash _ w)⟩
  · cases op <;> rfl
  · cases op <;>
      simp [Op.button, on_click, create_btn_click, update_btn_click, retrieve_btn_click,
        delete_btn_click, search_btn_click, ajax]
  · cases op <;>
      simp [Op.button, on_click, create_btn_click, update_btn_click, retrieve_btn_click,
        delete_btn_click, search_btn_click, ajax]

/-- Witness for C10: Delete clicked on the freshly loaded page, followed by an
edit of the identifier field and a click on Search. -/
theorem message_empty_when_issued_witness :
    (∀ e ∈ [Event.input .id "3", Event.click .search], e.isReply = false)
    ∧ (on_click Op.delete.button start).page = empty_flash start.page
    ∧ (on_click Op.delete.button start).page.flash_message = ""
    ∧ (on_click Op.delete.button start).inflight.length = start.inflight.length + 1
    ∧ (on_click Op.delete.button start).inflight.getLast?.map (fun r => r.op) = some .delete
    ∧ (run [Event.input .id "3", Event.click .search] (on_click Op.delete.button start)).map
        (fun w2 => w2.page.flash_message) = some "" :=
  ⟨by decide, message_empty_when_issued .delete start _ (by decide)⟩

end RestApi
